import Mathlib

/-!
Shallow embedding of the Blogs-Backend repository (Express + MySQL blog API)
and verification of its specification claims.

Source files embedded:
- src/middleware/checkOwnership.js   (ownership gate)
- src/controllers/authController.js  (signup, login)
- src/controllers/articleController.js (article CRUD, src/unnamed/part_000)
- src/routes/articleRoutes.js        (route table)

JavaScript values that can be either numbers or strings (ids decoded from
tokens vs. ids stored in MySQL INT columns) are modelled by `JsVal`;
JavaScript strict equality (the `!==` / `===` operators) is `strictEq`.
Handlers are pure functions from the request plus the database state; the
possibility that a `db.query` call throws (caught by each handler's
`try/catch`) is modelled by a `dbFail : Bool` parameter.
-/

/-- A JavaScript primitive value that can appear as an id: either a number
or a string. MySQL INT columns surface as numbers; values decoded from a
JWT payload may be either. -/
inductive JsVal where
  | num : Int → JsVal
  | str : String → JsVal
deriving DecidableEq, Repr

/-- JavaScript strict equality (`===`): true only when the two values have
the same runtime type and the same content; a number never strictly equals
a string. -/
def strictEq : JsVal → JsVal → Bool
  | JsVal.num a, JsVal.num b => a == b
  | JsVal.str a, JsVal.str b => a == b
  | _, _ => false

theorem strictEq_iff (a b : JsVal) : strictEq a b = true ↔ a = b := by
  cases a <;> cases b <;> simp [strictEq]

/-- A row of the `articles` table (schema from the README:
id, author_id, title, content, summary, category, tags). `author_id` is
kept as a `JsVal` so that the value written at creation time (which comes
from the decoded token) is compared unchanged by the ownership gate. -/
structure Article where
  id : Nat
  author_id : JsVal
  title : String
  content : String
  summary : String
  category : String
  tags : Option String
deriving DecidableEq, Repr

/-- The lookup `SELECT author_id FROM articles WHERE id = ?` restricted to
its first row: the first article in the store whose id matches. -/
def findArticle (store : List Article) (articleId : Nat) : Option Article :=
  store.find? (fun a => a.id == articleId)

/-- An error/success envelope `{status, success, message}` as produced by
`res.status(s).json({success, message})`. -/
structure MsgResponse where
  status : Nat
  success : Bool
  message : String
deriving DecidableEq, Repr

/-- Outcome of the `checkOwnership` middleware: either it halts the request
with a response, or it calls `next()` and the downstream handler runs. -/
inductive GateResult where
  | halt : MsgResponse → GateResult
  | proceed : GateResult
deriving DecidableEq, Repr

/-- src/middleware/checkOwnership.js: look up the article's `author_id`;
404 when no row exists, 403 when `rows[0].author_id !== req.user.id`
(strict inequality), otherwise `next()`. A thrown query error is caught
and answered with 500 "Server error". -/
def checkOwnership (dbFail : Bool) (store : List Article) (articleId : Nat)
    (userId : JsVal) : GateResult :=
  if dbFail then GateResult.halt ⟨500, false, "Server error"⟩
  else
    match findArticle store articleId with
    | none => GateResult.halt ⟨404, false, "Article not found"⟩
    | some row =>
      if strictEq row.author_id userId then GateResult.proceed
      else GateResult.halt ⟨403, false, "Forbidden: You are not the author"⟩

/-- A sample article store used by witnesses. -/
def sampleStore : List Article :=
  [⟨1, JsVal.num 5, "t", "c", "c...", "cat", none⟩]

/-- C1: with the database reachable, the ownership gate answers 404
"Article not found" whenever no article with the requested id exists (no
ownership comparison can be observed there); when the article exists but
its author id is not strictly equal to the actor's id it answers 403 (and
in particular not 404); when the ids are strictly equal it proceeds. -/
theorem checkOwnership_cases (store : List Article) (articleId : Nat)
    (userId : JsVal) :
    (findArticle store articleId = none →
      checkOwnership false store articleId userId =
        GateResult.halt ⟨404, false, "Article not found"⟩) ∧
    (∀ row, findArticle store articleId = some row →
      strictEq row.author_id userId = false →
      checkOwnership false store articleId userId =
        GateResult.halt ⟨403, false, "Forbidden: You are not the author"⟩) ∧
    (∀ row, findArticle store articleId = some row →
      strictEq row.author_id userId = true →
      checkOwnership false store articleId userId = GateResult.proceed) := by
  refine ⟨fun h => ?_, fun row h hne => ?_, fun row h heq => ?_⟩
  · simp [checkOwnership, h]
  · simp [checkOwnership, h, hne]
  · simp [checkOwnership, h, heq]

/-- Concrete exercise of all three branches of the ownership gate. -/
theorem checkOwnership_cases_witness :
    checkOwnership false sampleStore 2 (JsVal.num 5) =
      GateResult.halt ⟨404, false, "Article not found"⟩ ∧
    checkOwnership false sampleStore 1 (JsVal.num 6) =
      GateResult.halt ⟨403, false, "Forbidden: You are not the author"⟩ ∧
    checkOwnership false sampleStore 1 (JsVal.num 5) = GateResult.proceed :=
  ⟨(checkOwnership_cases sampleStore 2 (JsVal.num 5)).1 (by decide),
   (checkOwnership_cases sampleStore 1 (JsVal.num 6)).2.1
     ⟨1, JsVal.num 5, "t", "c", "c...", "cat", none⟩ (by decide) (by decide),
   (checkOwnership_cases sampleStore 1 (JsVal.num 5)).2.2
     ⟨1, JsVal.num 5, "t", "c", "c...", "cat", none⟩ (by decide) (by decide)⟩

/-- C2: when the requested article exists, the gate proceeds exactly when
the stored author id and the decoded actor id are equal as JavaScript
values of the same type; a numeric id and a string id never compare
equal, in either order. -/
theorem checkOwnership_strict_equality (store : List Article)
    (articleId : Nat) (userId : JsVal) (row : Article)
    (h : findArticle store articleId = some row) :
    (checkOwnership false store articleId userId = GateResult.proceed ↔
      row.author_id = userId) ∧
    (∀ n : Int, ∀ s : String,
      strictEq (JsVal.num n) (JsVal.str s) = false ∧
      strictEq (JsVal.str s) (JsVal.num n) = false) := by
  constructor
  · rw [← strictEq_iff]
    cases heq : strictEq row.author_id userId <;>
      simp [checkOwnership, h, heq]
  · intro n s
    exact ⟨rfl, rfl⟩

/-- Concrete exercise of the strict-equality characterisation: a stored
numeric author id 5 against the string actor id "5" does not proceed. -/
theorem checkOwnership_strict_equality_witness :
    (checkOwnership false sampleStore 1 (JsVal.str "5") = GateResult.proceed ↔
      JsVal.num 5 = JsVal.str "5") ∧
    strictEq (JsVal.num 5) (JsVal.str "5") = false :=
  ⟨(checkOwnership_strict_equality sampleStore 1 (JsVal.str "5")
      ⟨1, JsVal.num 5, "t", "c", "c...", "cat", none⟩ (by decide)).1,
   ((checkOwnership_strict_equality sampleStore 1 (JsVal.str "5")
      ⟨1, JsVal.num 5, "t", "c", "c...", "cat", none⟩ (by decide)).2 5 "5").1⟩

/-- A row of the `users` table: id, username, email, password (the bcrypt
hash; the column is named `password` in the schema). -/
structure UserRow where
  id : Nat
  username : String
  email : String
  password : String
deriving DecidableEq, Repr

/-- The lookup `SELECT ... FROM users WHERE email = ?`: all rows whose
email column equals the given email, in store order. -/
def findByEmail (users : List UserRow) (email : String) : List UserRow :=
  users.filter (fun u => u.email == email)

/-- JavaScript falsiness of an optional request-body string: `!x` is true
when the field is absent (`undefined`) or the empty string. -/
def falsyStr : Option String → Bool
  | none => true
  | some s => s == ""

/-- A token payload: a set of named claims, as the JWT library signs a
JavaScript object. -/
def Claims : Type := List (String × JsVal)

instance : DecidableEq Claims := by
  unfold Claims
  infer_instance

/-- Modelled from the spec: `src/utils/generateToken.js` is not under
src/ (only its callers in authController.js are). Per spec sections 3 and
4.2, the issued token is a signed claim set of exactly
`{id, email, issuedAt, expiresAt}` bound to the user's id and email, with
a configured expiry duration added to the issue time. -/
def generateToken (now expiry : Nat) (id : Nat) (email : String) : Claims :=
  [("id", JsVal.num id), ("email", JsVal.str email),
   ("issuedAt", JsVal.num now), ("expiresAt", JsVal.num (now + expiry))]

/-- An auth endpoint response `{status, success, message, token?}`. -/
structure AuthResponse where
  status : Nat
  success : Bool
  message : String
  token : Option Claims
deriving DecidableEq

/-- src/controllers/authController.js `login`: validate that email and
password are present, look the user up by email, answer 400
"Invalid credentials" when no row matches, compare the password against
the stored hash with `verify` (bcrypt.compare), answer the same 400
"Invalid credentials" on mismatch, and otherwise issue a token for the
found user. A thrown query error is caught and answered 500. -/
def login (verify : String → String → Bool) (now expiry : Nat)
    (dbFail : Bool) (users : List UserRow)
    (email password : Option String) : AuthResponse :=
  if falsyStr email || falsyStr password then
    ⟨400, false, "Email and password are required", none⟩
  else if dbFail then ⟨500, false, "Server error", none⟩
  else
    match findByEmail users (email.getD "") with
    | [] => ⟨400, false, "Invalid credentials", none⟩
    | user :: _ =>
      if verify (password.getD "") user.password then
        ⟨200, true, "Login successful",
          some (generateToken now expiry user.id user.email)⟩
      else ⟨400, false, "Invalid credentials", none⟩

/-- src/controllers/authController.js `signup`: validate the three fields,
check for an existing user with the same email (400
"Email already registered" when found), hash the password, insert the new
user (the store assigns `nextId` as `result.insertId`), and issue a token
for `{id, email}`. Returns the response together with the resulting users
store. A thrown query error is caught and answered 500. -/
def signup (hash : String → String) (now expiry nextId : Nat)
    (dbFail : Bool) (users : List UserRow)
    (username email password : Option String) :
    AuthResponse × List UserRow :=
  if falsyStr username || falsyStr email || falsyStr password then
    (⟨400, false, "All fields are required", none⟩, users)
  else if dbFail then (⟨500, false, "Server error", none⟩, users)
  else
    if (findByEmail users (email.getD "")).length > 0 then
      (⟨400, false, "Email already registered", none⟩, users)
    else
      let hashed := hash (password.getD "")
      (⟨201, true, "User registered successfully",
         some (generateToken now expiry nextId (email.getD ""))⟩,
       users ++ [⟨nextId, username.getD "", email.getD "", hashed⟩])

/-- The login failure response shared by the unknown-email and
wrong-password branches. -/
def invalidCredentials : AuthResponse :=
  ⟨400, false, "Invalid credentials", none⟩

/-- A sample users store used by witnesses: one user whose stored hash is
verified only by the password "pw1" under `sampleVerify`. -/
def sampleUsers : List UserRow :=
  [⟨7, "al", "a@x.com", "hash-pw1"⟩]

/-- A sample bcrypt.compare model used by witnesses. -/
def sampleVerify (p h : String) : Bool := h == "hash-" ++ p

/-- A sample bcrypt.hash model used by witnesses. -/
def sampleHash (p : String) : String := "hash-" ++ p

/-- C3: with both fields present and the database reachable, a login whose
email matches no user and a login whose matched user's stored hash does
not verify against the given password produce the very same response
value: status 400, success false, message "Invalid credentials", no
token — so the two failures are indistinguishable to the caller. -/
theorem login_uniform_failure (verify : String → String → Bool)
    (now expiry : Nat) (users : List UserRow)
    (email password : Option String)
    (he : falsyStr email = false) (hp : falsyStr password = false) :
    (findByEmail users (email.getD "") = [] →
      login verify now expiry false users email password =
        invalidCredentials) ∧
    (∀ u rest, findByEmail users (email.getD "") = u :: rest →
      verify (password.getD "") u.password = false →
      login verify now expiry false users email password =
        invalidCredentials) := by
  constructor
  · intro h
    simp [login, he, hp, h, invalidCredentials]
  · intro u rest h hv
    simp [login, he, hp, h, hv, invalidCredentials]

/-- Concrete exercise of both login failure branches: unknown email and
wrong password both answer exactly the "Invalid credentials" response. -/
theorem login_uniform_failure_witness :
    login sampleVerify 0 604800 false sampleUsers (some "b@x.com")
        (some "pw1") = invalidCredentials ∧
    login sampleVerify 0 604800 false sampleUsers (some "a@x.com")
        (some "wrong") = invalidCredentials :=
  ⟨(login_uniform_failure sampleVerify 0 604800 sampleUsers (some "b@x.com")
      (some "pw1") (by decide) (by decide)).1 (by decide),
   (login_uniform_failure sampleVerify 0 604800 sampleUsers (some "a@x.com")
      (some "wrong") (by decide) (by decide)).2 ⟨7, "al", "a@x.com", "hash-pw1"⟩
      [] (by decide) (by decide)⟩

/-- C4 counterexample: the conflict response's message is
"Email already registered", whose first word is "Email" — the response
does name the email as the conflicting field, contradicting the claim
that the failure message does not reveal what caused the conflict. -/
theorem signup_conflict_message_names_email :
    (signup sampleHash 0 604800 8 false sampleUsers (some "al")
        (some "a@x.com") (some "pw2")).1.message =
      "Email already registered" ∧
    "Email".data.isPrefixOf
      (signup sampleHash 0 604800 8 false sampleUsers (some "al")
        (some "a@x.com") (some "pw2")).1.message.data = true := by
  constructor <;> decide

/-- C4 (amended): with all three fields present and the database reachable,
a signup whose email already belongs to a stored user fails with status
400, success false and no token, and leaves the users store unchanged (no
user is inserted); its message is exactly "Email already registered". -/
theorem signup_conflict (hash : String → String) (now expiry nextId : Nat)
    (users : List UserRow) (username email password : Option String)
    (hu : falsyStr username = false) (he : falsyStr email = false)
    (hp : falsyStr password = false)
    (hdup : findByEmail users (email.getD "") ≠ []) :
    signup hash now expiry nextId false users username email password =
      (⟨400, false, "Email already registered", none⟩, users) := by
  have hlen : 0 < (findByEmail users (email.getD "")).length :=
    List.length_pos.mpr hdup
  simp [signup, hu, he, hp, hlen]

/-- Concrete exercise of the duplicate-email signup: second signup with
the already-registered email "a@x.com" answers 400 and keeps the store. -/
theorem signup_conflict_witness :
    signup sampleHash 0 604800 8 false sampleUsers (some "al")
        (some "a@x.com") (some "pw2") =
      (⟨400, false, "Email already registered", none⟩, sampleUsers) :=
  signup_conflict sampleHash 0 604800 8 sampleUsers (some "al")
    (some "a@x.com") (some "pw2") (by decide) (by decide) (by decide)
    (by decide)

/-- C5: for a stored user found by the login email lookup whose password
verifies, login succeeds with status 200 and a token whose claim names
are exactly id, email, issuedAt, expiresAt; the email claim is the user's
email, the id claim is the user's id, and no claim named "password" (or
anything else) is present — in particular the stored hash is absent. -/
theorem login_success_token_claims (verify : String → String → Bool)
    (now expiry : Nat) (users : List UserRow)
    (email password : Option String) (u : UserRow) (rest : List UserRow)
    (he : falsyStr email = false) (hp : falsyStr password = false)
    (hfind : findByEmail users (email.getD "") = u :: rest)
    (hv : verify (password.getD "") u.password = true) :
    login verify now expiry false users email password =
      ⟨200, true, "Login successful",
        some (generateToken now expiry u.id u.email)⟩ ∧
    (generateToken now expiry u.id u.email).map Prod.fst =
      ["id", "email", "issuedAt", "expiresAt"] ∧
    (generateToken now expiry u.id u.email).lookup "email" =
      some (JsVal.str u.email) ∧
    (generateToken now expiry u.id u.email).lookup "id" =
      some (JsVal.num u.id) ∧
    (generateToken now expiry u.id u.email).lookup "password" = none := by
  refine ⟨?_, ?_, ?_, ?_, ?_⟩
  · simp [login, he, hp, hfind, hv]
  · simp [generateToken]
  · simp [generateToken, List.lookup]
  · simp [generateToken, List.lookup]
  · simp [generateToken, List.lookup]

/-- Concrete exercise of a successful login: the sample user logs in with
the correct password and receives the four-claim token. -/
theorem login_success_token_claims_witness :
    login sampleVerify 100 604800 false sampleUsers (some "a@x.com")
        (some "pw1") =
      ⟨200, true, "Login successful",
        some (generateToken 100 604800 7 "a@x.com")⟩ ∧
    (generateToken 100 604800 7 "a@x.com").lookup "password" = none :=
  ⟨(login_success_token_claims sampleVerify 100 604800 sampleUsers
      (some "a@x.com") (some "pw1") ⟨7, "al", "a@x.com", "hash-pw1"⟩ []
      (by decide) (by decide) (by decide) (by decide)).1,
   (login_success_token_claims sampleVerify 100 604800 sampleUsers
      (some "a@x.com") (some "pw1") ⟨7, "al", "a@x.com", "hash-pw1"⟩ []
      (by decide) (by decide) (by decide) (by decide)).2.2.2.2⟩

/-- Response of `createArticle`: `{status, success, message, articleId?}`. -/
structure IdResponse where
  status : Nat
  success : Bool
  message : String
  articleId : Option Nat
deriving DecidableEq, Repr

/-- The summary derived at create/update time:
`content.substring(0, 150) + "..."` — the first 150 characters of the
content followed by an ellipsis marker. -/
def mkSummary (content : String) : String := content.take 150 ++ "..."

/-- The article row inserted by `createArticle`: id assigned by the store,
author_id taken from the authenticated requester (`req.user.id`), summary
derived from the content, tags stored as given (absent stays absent). -/
def mkArticle (nextId : Nat) (userId : JsVal)
    (title content category : String) (tags : Option String) : Article :=
  ⟨nextId, userId, title, content, mkSummary content, category, tags⟩

/-- src/controllers/articleController.js `createArticle`: 400 when title,
content or category is falsy; otherwise insert a row whose author_id is
the requester's decoded id and answer 201 with the new id. Returns the
response together with the resulting articles store. A thrown query error
is caught and answered 500. -/
def createArticle (dbFail : Bool) (store : List Article) (nextId : Nat)
    (userId : JsVal) (title content category tags : Option String) :
    IdResponse × List Article :=
  if falsyStr title || falsyStr content || falsyStr category then
    (⟨400, false, "Title, content and category are required", none⟩, store)
  else if dbFail then (⟨500, false, "Server error", none⟩, store)
  else
    (⟨201, true, "Article created successfully", some nextId⟩,
     store ++ [mkArticle nextId userId (title.getD "") (content.getD "")
       (category.getD "") tags])

/-- The effect of
`UPDATE articles SET title = ?, content = ?, summary = ?, category = ?,
tags = ? WHERE id = ?`: every row whose id matches gets the five listed
columns replaced; every other row, and every other column of a matching
row (in particular `id` and `author_id`), is untouched. -/
def updateRows (store : List Article) (articleId : Nat)
    (title content summary category : String) (tags : Option String) :
    List Article :=
  store.map (fun a =>
    if a.id == articleId then
      { a with title := title, content := content, summary := summary,
               category := category, tags := tags }
    else a)

/-- src/controllers/articleController.js `updateArticle`: 400 when title,
content or category is falsy; otherwise run the UPDATE statement and
answer 200 without inspecting the statement's result. Returns the
response together with the resulting articles store. A thrown query error
is caught and answered 500. -/
def updateArticle (dbFail : Bool) (store : List Article) (articleId : Nat)
    (title content category tags : Option String) :
    MsgResponse × List Article :=
  if falsyStr title || falsyStr content || falsyStr category then
    (⟨400, false, "Title, content and category are required"⟩, store)
  else if dbFail then (⟨500, false, "Server error"⟩, store)
  else
    (⟨200, true, "Article updated successfully"⟩,
     updateRows store articleId (title.getD "") (content.getD "")
       (mkSummary (content.getD "")) (category.getD "") tags)

/-- src/controllers/articleController.js `deleteArticle`: run
`DELETE FROM articles WHERE id = ?` and answer 200 without inspecting the
statement's result. Returns the response together with the resulting
articles store. A thrown query error is caught and answered 500. -/
def deleteArticle (dbFail : Bool) (store : List Article) (articleId : Nat) :
    MsgResponse × List Article :=
  if dbFail then (⟨500, false, "Server error"⟩, store)
  else
    (⟨200, true, "Article deleted successfully"⟩,
     store.filter (fun a => a.id != articleId))

theorem updateRows_map_author (store : List Article) (articleId : Nat)
    (title content summary category : String) (tags : Option String) :
    (updateRows store articleId title content summary category tags).map
        Article.author_id = store.map Article.author_id := by
  induction store with
  | nil => rfl
  | cons a l ih =>
    simp only [updateRows, List.map_cons] at ih ⊢
    rw [ih]
    by_cases h : (a.id == articleId) = true <;> simp [h]

theorem updateRows_map_id (store : List Article) (articleId : Nat)
    (title content summary category : String) (tags : Option String) :
    (updateRows store articleId title content summary category tags).map
        Article.id = store.map Article.id := by
  induction store with
  | nil => rfl
  | cons a l ih =>
    simp only [updateRows, List.map_cons] at ih ⊢
    rw [ih]
    by_cases h : (a.id == articleId) = true <;> simp [h]

/-- C6: the update handler can only rewrite the five SET columns — for
every database state and every update request (any flags, any body), the
article stores before and after agree row-by-row on `author_id` and on
`id`; and when a create succeeds, the inserted row's `author_id` is
exactly the authenticated requester's id, appended to an otherwise
untouched store. -/
theorem article_author_immutable (dbFail : Bool) (store : List Article)
    (articleId : Nat) (title content category tags : Option String) :
    ((updateArticle dbFail store articleId title content category
        tags).2.map Article.author_id = store.map Article.author_id ∧
     (updateArticle dbFail store articleId title content category
        tags).2.map Article.id = store.map Article.id) ∧
    (∀ nextId : Nat, ∀ userId : JsVal,
      (falsyStr title || falsyStr content || falsyStr category) = false →
      (createArticle false store nextId userId title content category
          tags).2 =
        store ++ [mkArticle nextId userId (title.getD "") (content.getD "")
          (category.getD "") tags] ∧
      (mkArticle nextId userId (title.getD "") (content.getD "")
        (category.getD "") tags).author_id = userId) := by
  constructor
  · unfold updateArticle
    split_ifs <;>
      simp [updateRows_map_author, updateRows_map_id]
  · intro nextId userId hval
    refine ⟨?_, rfl⟩
    simp only [createArticle, hval, Bool.false_eq_true, if_false]

/-- Concrete exercise of C6: updating the sample article rewrites its
content but keeps its author id 5, and a create as user 9 stores 9. -/
theorem article_author_immutable_witness :
    (updateArticle false sampleStore 1 (some "t2") (some "c2") (some "k2")
        none).2.map Article.author_id = sampleStore.map Article.author_id ∧
    (createArticle false sampleStore 2 (JsVal.num 9) (some "t") (some "c")
        (some "k") none).2 =
      sampleStore ++ [mkArticle 2 (JsVal.num 9) "t" "c" "k" none] :=
  ⟨(article_author_immutable false sampleStore 1 (some "t2") (some "c2")
      (some "k2") none).1.1,
   ((article_author_immutable false sampleStore 1 (some "t") (some "c")
      (some "k") none).2 2 (JsVal.num 9) (by decide)).1⟩

theorem updateRows_of_not_found (store : List Article) (articleId : Nat)
    (title content summary category : String) (tags : Option String)
    (h : findArticle store articleId = none) :
    updateRows store articleId title content summary category tags =
      store := by
  have h' := List.find?_eq_none.mp h
  unfold updateRows
  have hfix : ∀ a ∈ store,
      (if a.id == articleId then
        { a with title := title, content := content, summary := summary,
                 category := category, tags := tags }
      else a) = a := by
    intro a ha
    rw [if_neg (h' a ha)]
  exact (List.map_congr_left hfix).trans (List.map_id store)

theorem filter_ne_of_not_found (store : List Article) (articleId : Nat)
    (h : findArticle store articleId = none) :
    store.filter (fun a => a.id != articleId) = store := by
  have h' := List.find?_eq_none.mp h
  refine List.filter_eq_self.mpr ?_
  intro a ha
  have hne : a.id ≠ articleId := by simpa using h' a ha
  simpa using hne

/-- C9: with the database reachable, create and update answer the 400
validation response exactly when title, content or category is
missing/empty — tags never enter the check; and with the three required
fields present but tags absent, create answers 201 and stores the new row
with tags absent, while update answers 200. -/
theorem article_validation_and_optional_tags (store : List Article)
    (nextId articleId : Nat) (userId : JsVal)
    (title content category tags : Option String) :
    ((createArticle false store nextId userId title content category
        tags).1.status = 400 ↔
      (falsyStr title || falsyStr content || falsyStr category) = true) ∧
    ((updateArticle false store articleId title content category
        tags).1.status = 400 ↔
      (falsyStr title || falsyStr content || falsyStr category) = true) ∧
    ((falsyStr title || falsyStr content || falsyStr category) = false →
      (createArticle false store nextId userId title content category
        none).1.status = 201 ∧
      (createArticle false store nextId userId title content category
        none).2 =
        store ++ [mkArticle nextId userId (title.getD "") (content.getD "")
          (category.getD "") none] ∧
      (mkArticle nextId userId (title.getD "") (content.getD "")
        (category.getD "") none).tags = none ∧
      (updateArticle false store articleId title content category
        none).1.status = 200) := by
  refine ⟨?_, ?_, fun hv => ?_⟩
  · by_cases hv : (falsyStr title || falsyStr content || falsyStr category)
        = true
    · simp [createArticle, hv]
    · simp [createArticle, hv]
  · by_cases hv : (falsyStr title || falsyStr content || falsyStr category)
        = true
    · simp [updateArticle, hv]
    · simp [updateArticle, hv]
  · refine ⟨?_, ?_, rfl, ?_⟩
    · simp [createArticle, hv]
    · simp [createArticle, hv]
    · simp [updateArticle, hv]

/-- Concrete exercise of C9: a create without a title is rejected 400; a
create lacking only tags succeeds 201 and stores the row with no tags. -/
theorem article_validation_witness :
    (createArticle false [] 1 (JsVal.num 5) none (some "c") (some "k")
        none).1.status = 400 ∧
    (createArticle false [] 1 (JsVal.num 5) (some "t") (some "c") (some "k")
        none).1.status = 201 ∧
    (createArticle false [] 1 (JsVal.num 5) (some "t") (some "c") (some "k")
        none).2 = [mkArticle 1 (JsVal.num 5) "t" "c" "k" none] :=
  ⟨(article_validation_and_optional_tags [] 1 0 (JsVal.num 5) none
      (some "c") (some "k") none).1.mpr (by decide),
   ((article_validation_and_optional_tags [] 1 0 (JsVal.num 5) (some "t")
      (some "c") (some "k") none).2.2 (by decide)).1,
   by simpa using ((article_validation_and_optional_tags [] 1 0
      (JsVal.num 5) (some "t") (some "c") (some "k") none).2.2
      (by decide)).2.1⟩

/-- C10: with the database reachable and the body valid, update always
answers 200 "Article updated successfully" and delete always answers 200
"Article deleted successfully", for every store — in particular also when
no article with the requested id exists, in which case the statements
affect zero rows and the store is unchanged. -/
theorem update_delete_ignore_result (store : List Article)
    (articleId : Nat) (title content category tags : Option String)
    (hval : (falsyStr title || falsyStr content || falsyStr category)
      = false) :
    (updateArticle false store articleId title content category tags).1 =
      ⟨200, true, "Article updated successfully"⟩ ∧
    (deleteArticle false store articleId).1 =
      ⟨200, true, "Article deleted successfully"⟩ ∧
    (findArticle store articleId = none →
      (updateArticle false store articleId title content category
        tags).2 = store ∧
      (deleteArticle false store articleId).2 = store) := by
  refine ⟨?_, rfl, fun h => ⟨?_, ?_⟩⟩
  · simp [updateArticle, hval]
  · simp [updateArticle, hval,
      updateRows_of_not_found store articleId (title.getD "")
        (content.getD "") (mkSummary (content.getD "")) (category.getD "")
        tags h]
  · simp [deleteArticle, filter_ne_of_not_found store articleId h]

/-- Concrete exercise of C10: updating and deleting the nonexistent
article 42 both answer 200 and leave the sample store untouched. -/
theorem update_delete_ignore_result_witness :
    (updateArticle false sampleStore 42 (some "t") (some "c") (some "k")
        none).1 = ⟨200, true, "Article updated successfully"⟩ ∧
    (deleteArticle false sampleStore 42).1 =
      ⟨200, true, "Article deleted successfully"⟩ ∧
    (updateArticle false sampleStore 42 (some "t") (some "c") (some "k")
        none).2 = sampleStore :=
  ⟨(update_delete_ignore_result sampleStore 42 (some "t") (some "c")
      (some "k") none (by decide)).1,
   (update_delete_ignore_result sampleStore 42 (some "t") (some "c")
      (some "k") none (by decide)).2.1,
   ((update_delete_ignore_result sampleStore 42 (some "t") (some "c")
      (some "k") none (by decide)).2.2 (by decide)).1⟩

/-- A row of the single-article query
`SELECT a.*, u.username, u.email FROM articles a JOIN users u ON
a.author_id = u.id WHERE a.id = ?`: the article's columns together with
the author's username and email. -/
structure JoinedRow where
  article : Article
  username : String
  email : String
deriving DecidableEq, Repr

/-- The JOIN step: the first user whose id equals the article's stored
author id, packaged with the article. Articles whose author id matches no
user produce no row. -/
def joinAuthor (users : List UserRow) (a : Article) : Option JoinedRow :=
  match users.find? (fun u => strictEq a.author_id (JsVal.num u.id)) with
  | none => none
  | some u => some ⟨a, u.username, u.email⟩

/-- Response of `getArticleById`: `{status, success, message?, data?}` —
the 200 response carries no message, the error responses carry no data. -/
structure DataResponse where
  status : Nat
  success : Bool
  message : Option String
  data : Option JoinedRow
deriving DecidableEq, Repr

/-- src/controllers/articleController.js `getArticleById`: run the joined
single-article query; 404 "Article not found" when it yields no row,
otherwise 200 with the first row (article columns plus the author's
username and email) as `data`. A thrown query error is caught and
answered 500. -/
def getArticleById (dbFail : Bool) (articles : List Article)
    (users : List UserRow) (articleId : Nat) : DataResponse :=
  if dbFail then ⟨500, false, some "Server error", none⟩
  else
    match (articles.filter (fun a => a.id == articleId)).filterMap
        (joinAuthor users) with
    | [] => ⟨404, false, some "Article not found", none⟩
    | r :: _ => ⟨200, true, none, some r⟩

/-- A row of the list query `SELECT a.*, u.username FROM articles a JOIN
users u ON a.author_id = u.id`: the article plus the author's username. -/
structure ArticleWithUser where
  article : Article
  username : String
deriving DecidableEq, Repr

/-- The list query's JOIN step: username only. -/
def joinUsername (users : List UserRow) (a : Article) :
    Option ArticleWithUser :=
  match users.find? (fun u => strictEq a.author_id (JsVal.num u.id)) with
  | none => none
  | some u => some ⟨a, u.username⟩

/-- Response of `getAllArticles`: `{status, success, message?, count?,
data?}` — the 200 response carries count and data but no message. -/
structure ListResponse where
  status : Nat
  success : Bool
  message : Option String
  count : Option Nat
  data : Option (List ArticleWithUser)
deriving DecidableEq, Repr

/-- src/controllers/articleController.js `getAllArticles`: run the joined
list query and answer 200 with the rows and their count. (The source
orders rows by `created_at DESC`; the embedding keeps store order, which
no claim depends on.) A thrown query error is caught and answered 500. -/
def getAllArticles (dbFail : Bool) (articles : List Article)
    (users : List UserRow) : ListResponse :=
  if dbFail then ⟨500, false, some "Server error", none, none⟩
  else
    let rows := articles.filterMap (joinUsername users)
    ⟨200, true, none, some rows.length, some rows⟩

/-- The middleware names appearing in src/routes/articleRoutes.js. -/
inductive Middleware where
  | verifyJWT
  | checkOwnership
deriving DecidableEq, Repr

/-- The handler names appearing in src/routes/articleRoutes.js. -/
inductive Handler where
  | createArticle
  | getAllArticles
  | getArticleById
  | updateArticle
  | deleteArticle
deriving DecidableEq, Repr

/-- The HTTP methods appearing in src/routes/articleRoutes.js. -/
inductive Method where
  | get
  | post
  | put
  | delete
deriving DecidableEq, Repr

/-- A route registration: method, path pattern, middleware chain in
order, final handler. -/
structure Route where
  method : Method
  path : String
  middlewares : List Middleware
  handler : Handler
deriving DecidableEq, Repr

/-- src/routes/articleRoutes.js: the five registrations, in source
order. -/
def articleRoutes : List Route :=
  [⟨Method.post, "/", [Middleware.verifyJWT], Handler.createArticle⟩,
   ⟨Method.get, "/", [], Handler.getAllArticles⟩,
   ⟨Method.get, "/:id", [], Handler.getArticleById⟩,
   ⟨Method.put, "/:id", [Middleware.verifyJWT, Middleware.checkOwnership],
     Handler.updateArticle⟩,
   ⟨Method.delete, "/:id",
     [Middleware.verifyJWT, Middleware.checkOwnership],
     Handler.deleteArticle⟩]

/-- C8: the GET /:id route is registered with an empty middleware chain
(no authentication gate), and whenever the requested article exists and
its author id matches a stored user, the 200 response's data is the
joined row carrying that user's username and email. -/
theorem get_article_public_exposes_email (articles : List Article)
    (users : List UserRow) (articleId : Nat) (a : Article)
    (rest : List Article) (u : UserRow)
    (ha : articles.filter (fun x => x.id == articleId) = a :: rest)
    (hu : users.find? (fun x => strictEq a.author_id (JsVal.num x.id)) =
      some u) :
    (Route.mk Method.get "/:id" [] Handler.getArticleById ∈
      articleRoutes) ∧
    getArticleById false articles users articleId =
      ⟨200, true, none, some ⟨a, u.username, u.email⟩⟩ ∧
    (getArticleById false articles users articleId).data =
      some ⟨a, u.username, u.email⟩ := by
  refine ⟨by simp [articleRoutes], ?_, ?_⟩ <;>
    simp [getArticleById, ha, List.filterMap_cons, joinAuthor, hu]

/-- Concrete exercise of C8: an unauthenticated read of article 1 returns
the author's email "a@x.com" in the response data. -/
theorem get_article_public_exposes_email_witness :
    getArticleById false
        [⟨1, JsVal.num 7, "t", "c", "c...", "cat", none⟩] sampleUsers 1 =
      ⟨200, true, none,
        some ⟨⟨1, JsVal.num 7, "t", "c", "c...", "cat", none⟩, "al",
          "a@x.com"⟩⟩ :=
  (get_article_public_exposes_email
    [⟨1, JsVal.num 7, "t", "c", "c...", "cat", none⟩] sampleUsers 1
    ⟨1, JsVal.num 7, "t", "c", "c...", "cat", none⟩ [] 
    ⟨7, "al", "a@x.com", "hash-pw1"⟩ (by decide) (by decide)).2.1

theorem checkOwnership_halt_shape (d : Bool) (st : List Article) (i : Nat)
    (uid : JsVal) (r : MsgResponse)
    (hr : checkOwnership d st i uid = GateResult.halt r) :
    r.success = false ∧ 400 ≤ r.status := by
  unfold checkOwnership at hr
  split_ifs at hr
  · injection hr with h
    subst h
    exact ⟨rfl, by decide⟩
  · cases hfa : findArticle st i with
    | none =>
      rw [hfa] at hr
      simp only [] at hr
      injection hr with h
      subst h
      exact ⟨rfl, by decide⟩
    | some row =>
      rw [hfa] at hr
      simp only [] at hr
      split_ifs at hr
      · injection hr with h
        subst h
        exact ⟨rfl, by decide⟩

theorem signup_error_shape (hash : String → String)
    (now expiry nextId : Nat) (d : Bool) (us : List UserRow)
    (un em pw : Option String) :
    400 ≤ (signup hash now expiry nextId d us un em pw).1.status →
    (signup hash now expiry nextId d us un em pw).1.success = false := by
  unfold signup
  split_ifs <;> intro h <;> first | rfl | simp at h

theorem login_error_shape (verify : String → String → Bool)
    (now expiry : Nat) (d : Bool) (us : List UserRow)
    (em pw : Option String) :
    400 ≤ (login verify now expiry d us em pw).status →
    (login verify now expiry d us em pw).success = false := by
  unfold login
  split_ifs
  · intro _; rfl
  · intro _; rfl
  · cases hfind : findByEmail us (em.getD "") with
    | nil => intro _; rfl
    | cons u rest =>
      cases hc : verify (pw.getD "") u.password <;> simp [hc]

theorem createArticle_error_shape (d : Bool) (st : List Article)
    (nid : Nat) (uid : JsVal) (t c k tg : Option String) :
    400 ≤ (createArticle d st nid uid t c k tg).1.status →
    (createArticle d st nid uid t c k tg).1.success = false := by
  unfold createArticle
  split_ifs <;> intro h <;> first | rfl | simp at h

theorem getAllArticles_error_shape (d : Bool) (st : List Article)
    (us : List UserRow) :
    400 ≤ (getAllArticles d st us).status →
    (getAllArticles d st us).success = false ∧
    ((getAllArticles d st us).message).isSome = true := by
  unfold getAllArticles
  split_ifs <;> intro h <;> first | exact ⟨rfl, rfl⟩ | simp at h

theorem getArticleById_error_shape (d : Bool) (st : List Article)
    (us : List UserRow) (i : Nat) :
    400 ≤ (getArticleById d st us i).status →
    (getArticleById d st us i).success = false ∧
    ((getArticleById d st us i).message).isSome = true := by
  unfold getArticleById
  split_ifs
  · intro _; exact ⟨rfl, rfl⟩
  · cases hrows : (st.filter (fun a => a.id == i)).filterMap
        (joinAuthor us) with
    | nil => intro _; exact ⟨rfl, rfl⟩
    | cons r rest => intro h; simp at h

theorem updateArticle_error_shape (d : Bool) (st : List Article) (i : Nat)
    (t c k tg : Option String) :
    400 ≤ (updateArticle d st i t c k tg).1.status →
    (updateArticle d st i t c k tg).1.success = false := by
  unfold updateArticle
  split_ifs <;> intro h <;> first | rfl | simp at h

theorem deleteArticle_error_shape (d : Bool) (st : List Article)
    (i : Nat) :
    400 ≤ (deleteArticle d st i).1.status →
    (deleteArticle d st i).1.success = false := by
  unfold deleteArticle
  split_ifs <;> intro h <;> first | rfl | simp at h

/-- C7: when the try-block of any operation throws (database unreachable,
hashing or signing failure), the catch collapses the failure to exactly
status 500, success false, message "Server error", with no token, data or
id attached — no internal detail reaches the caller; and across all
operations every response with a 4xx/5xx status has success false and a
message present (the `{success:false, message}` envelope). -/
theorem server_error_collapse (hash : String → String)
    (verify : String → String → Bool) (now expiry nextId : Nat)
    (users : List UserRow) (articles : List Article) (articleId : Nat)
    (userId : JsVal)
    (username email password title content category tags : Option String)
    (hun : falsyStr username = false) (hem : falsyStr email = false)
    (hpw : falsyStr password = false)
    (hv : (falsyStr title || falsyStr content || falsyStr category)
      = false) :
    ((signup hash now expiry nextId true users username email
        password).1 = ⟨500, false, "Server error", none⟩) ∧
    (login verify now expiry true users email password =
      ⟨500, false, "Server error", none⟩) ∧
    ((createArticle true articles nextId userId title content category
        tags).1 = ⟨500, false, "Server error", none⟩) ∧
    (getAllArticles true articles users =
      ⟨500, false, some "Server error", none, none⟩) ∧
    (getArticleById true articles users articleId =
      ⟨500, false, some "Server error", none⟩) ∧
    ((updateArticle true articles articleId title content category
        tags).1 = ⟨500, false, "Server error"⟩) ∧
    ((deleteArticle true articles articleId).1 =
      ⟨500, false, "Server error"⟩) ∧
    (checkOwnership true articles articleId userId =
      GateResult.halt ⟨500, false, "Server error"⟩) ∧
    (∀ d us un em pw,
      400 ≤ (signup hash now expiry nextId d us un em pw).1.status →
      (signup hash now expiry nextId d us un em pw).1.success = false) ∧
    (∀ d us em pw, 400 ≤ (login verify now expiry d us em pw).status →
      (login verify now expiry d us em pw).success = false) ∧
    (∀ d st uid t c k tg,
      400 ≤ (createArticle d st nextId uid t c k tg).1.status →
      (createArticle d st nextId uid t c k tg).1.success = false) ∧
    (∀ d st us, 400 ≤ (getAllArticles d st us).status →
      (getAllArticles d st us).success = false ∧
      ((getAllArticles d st us).message).isSome = true) ∧
    (∀ d st us i, 400 ≤ (getArticleById d st us i).status →
      (getArticleById d st us i).success = false ∧
      ((getArticleById d st us i).message).isSome = true) ∧
    (∀ d st i t c k tg, 400 ≤ (updateArticle d st i t c k tg).1.status →
      (updateArticle d st i t c k tg).1.success = false) ∧
    (∀ d st i, 400 ≤ (deleteArticle d st i).1.status →
      (deleteArticle d st i).1.success = false) ∧
    (∀ d st i uid r, checkOwnership d st i uid = GateResult.halt r →
      r.success = false ∧ 400 ≤ r.status) := by
  refine ⟨?_, ?_, ?_, rfl, rfl, ?_, rfl, rfl, ?_, ?_, ?_, ?_, ?_, ?_, ?_,
    ?_⟩
  · simp [signup, hun, hem, hpw]
  · simp [login, hem, hpw]
  · simp [createArticle, hv]
  · simp [updateArticle, hv]
  · intro d us un em pw
    exact signup_error_shape hash now expiry nextId d us un em pw
  · intro d us em pw
    exact login_error_shape verify now expiry d us em pw
  · intro d st uid t c k tg
    exact createArticle_error_shape d st nextId uid t c k tg
  · intro d st us
    exact getAllArticles_error_shape d st us
  · intro d st us i
    exact getArticleById_error_shape d st us i
  · intro d st i t c k tg
    exact updateArticle_error_shape d st i t c k tg
  · intro d st i
    exact deleteArticle_error_shape d st i
  · intro d st i uid r
    exact checkOwnership_halt_shape d st i uid r

/-- Concrete exercise of C7: with valid bodies, a throwing database turns
a signup and a delete into exactly the generic 500 response. -/
theorem server_error_collapse_witness :
    (signup sampleHash 0 604800 8 true sampleUsers (some "al")
        (some "b@x.com") (some "pw")).1 =
      ⟨500, false, "Server error", none⟩ ∧
    (deleteArticle true sampleStore 1).1 = ⟨500, false, "Server error"⟩ :=
  ⟨(server_error_collapse sampleHash sampleVerify 0 604800 8 sampleUsers
      sampleStore 1 (JsVal.num 5) (some "al") (some "b@x.com") (some "pw")
      (some "t") (some "c") (some "k") none (by decide) (by decide)
      (by decide) (by decide)).1,
   (server_error_collapse sampleHash sampleVerify 0 604800 8 sampleUsers
      sampleStore 1 (JsVal.num 5) (some "al") (some "b@x.com") (some "pw")
      (some "t") (some "c") (some "k") none (by decide) (by decide)
      (by decide) (by decide)).2.2.2.2.2.2.1⟩
